import Mathlib

/-!
Shallow embedding of the ZeusBuilder client-side utility layer
(`src/zeus/static/js/utils/time_utils.js` and `src/zeus/static/js/main.js`),
with theorems checking the natural-language specification against it.

The JS code delegates date arithmetic and rendering to the third-party
`dayjs` library.  The relevant slice of dayjs behaviour is modelled here:
`dayjs.unix(v)` multiplies the numeric coercion of `v` by 1000 and wraps the
resulting epoch-millisecond instant (an unparseable value gives an invalid
object, modelled as `none`); `.local()` shifts to the ambient timezone,
modelled by an explicit offset parameter (0 = UTC); `.format(fmt)` renders
the wall-clock fields through the token language, of which the tokens used
by this repository (`YYYY YY MM DD hh mm ss a`) are embedded.

JS numeric coercion of strings is modelled for non-negative decimal integer
strings (the shape `data-timestamp` carries); every other non-empty string
is treated as NaN (`none`), as JS does for strings such as "not-a-number".
-/

namespace ZeusBuilder

/-- A JavaScript value as it can reach `formatTimeStampValue`: a string,
a number (modelled as an integer), `null`, or `undefined`. -/
inductive JSValue where
  | str (s : String)
  | num (n : Int)
  | nullV
  | undef
deriving DecidableEq, Repr

/-- JS truthiness for the modelled values: `""`, `0`, `null` and
`undefined` are falsy, everything else truthy. -/
def truthy : JSValue → Bool
  | .str s => s ≠ ""
  | .num n => n ≠ 0
  | .nullV => false
  | .undef => false

/-- Accumulate decimal digits; any non-digit character makes the whole
string coerce to NaN (`none`). -/
def decDigits (cs : List Char) : Option Nat :=
  cs.foldl
    (fun acc c =>
      match acc with
      | none => none
      | some n => if c.isDigit then some (10 * n + (c.toNat - 48)) else none)
    (some 0)

/-- JS `Number(s)` for a string, restricted to non-negative decimal integer
strings; `""` coerces to 0, any other unparseable string to NaN (`none`). -/
def strToNumber (s : String) : Option Int :=
  match s.data with
  | [] => some (0 : Int)
  | cs => (decDigits cs).map Int.ofNat

/-- JS numeric coercion of a value, as performed by `value * 1e3` inside
`dayjs.unix`: `undefined` is NaN, `null` is 0, numbers are themselves,
strings go through `strToNumber`. -/
def toNumber : JSValue → Option Int
  | .str s => strToNumber s
  | .num n => some n
  | .nullV => some 0
  | .undef => none

/-- `dayjs.unix(value)`: the epoch-millisecond instant `value * 1000`, or
`none` for an invalid object (NaN input, for which `isValid()` is false). -/
def dayjsUnix (v : JSValue) : Option Int :=
  (toNumber v).map (fun n => n * 1000)

/-- Broken-down wall-clock fields of an instant. -/
structure DateTime where
  year : Int
  month : Nat
  day : Nat
  hour : Nat
  minute : Nat
  second : Nat
deriving DecidableEq, Repr

/-- Civil date from a count of days since 1970-01-01 (proleptic Gregorian),
floor-division variant of the standard era/year-of-era computation. -/
def civilFromDays (z : Int) : Int × Nat × Nat :=
  let z2 := z + 719468
  let era := Int.fdiv z2 146097
  let doe := z2 - era * 146097
  let yoe := Int.fdiv (doe - Int.fdiv doe 1460 + Int.fdiv doe 36524 - Int.fdiv doe 146096) 365
  let y := yoe + era * 400
  let doy := doe - (365 * yoe + Int.fdiv yoe 4 - Int.fdiv yoe 100)
  let mp := Int.fdiv (5 * doy + 2) 153
  let d := doy - Int.fdiv (153 * mp + 2) 5 + 1
  let m := if mp < 10 then mp + 3 else mp - 9
  (if m ≤ 2 then y + 1 else y, m.toNat, d.toNat)

/-- Wall-clock fields of an epoch-millisecond instant under an ambient
timezone offset `tz` (in minutes east of UTC; `0` models a UTC browser),
as observed by `dayjs(...).local()`. -/
def msToDateTime (tz : Int) (ms : Int) : DateTime :=
  let totalSec := Int.fdiv (ms + tz * 60000) 1000
  let days := Int.fdiv totalSec 86400
  let secOfDay := (Int.fmod totalSec 86400).toNat
  let ymd := civilFromDays days
  { year := ymd.1, month := ymd.2.1, day := ymd.2.2,
    hour := secOfDay / 3600, minute := secOfDay % 3600 / 60, second := secOfDay % 60 }

/-- Two-digit zero-padded rendering of a field. -/
def pad2 (n : Nat) : String :=
  if n < 10 then "0" ++ toString n else toString n

/-- The dayjs format-token language, restricted to the tokens this
repository can produce (`YYYY YY MM DD hh mm ss a`); any other character
is copied literally. -/
def applyFormatAux (dt : DateTime) : List Char → String
  | 'Y' :: 'Y' :: 'Y' :: 'Y' :: rest => toString dt.year ++ applyFormatAux dt rest
  | 'Y' :: 'Y' :: rest => pad2 (Int.fmod dt.year 100).toNat ++ applyFormatAux dt rest
  | 'M' :: 'M' :: rest => pad2 dt.month ++ applyFormatAux dt rest
  | 'D' :: 'D' :: rest => pad2 dt.day ++ applyFormatAux dt rest
  | 'h' :: 'h' :: rest =>
      pad2 (if dt.hour % 12 = 0 then 12 else dt.hour % 12) ++ applyFormatAux dt rest
  | 'm' :: 'm' :: rest => pad2 dt.minute ++ applyFormatAux dt rest
  | 's' :: 's' :: rest => pad2 dt.second ++ applyFormatAux dt rest
  | 'a' :: rest => (if dt.hour < 12 then "am" else "pm") ++ applyFormatAux dt rest
  | c :: rest => String.singleton c ++ applyFormatAux dt rest
  | [] => ""

/-- `dayjs(ms).local().format(fmt)` under ambient timezone offset `tz`. -/
def dayjsFormat (tz : Int) (ms : Int) (fmt : String) : String :=
  applyFormatAux (msToDateTime tz ms) fmt.data

/-- The JS idiom `x || d` for a string-or-undefined value: the string when
present and non-empty (truthy), the default otherwise. -/
def jsOrDefault (v : Option String) (d : String) : String :=
  match v with
  | some s => if s = "" then d else s
  | none => d

/-- `const DEFAULT_FORMAT = "MM/DD/YY hh:mm:ss a"` (time_utils.js line 6). -/
def DEFAULT_FORMAT : String := "MM/DD/YY hh:mm:ss a"

/-- `formatTimeStampValue(value, format = undefined)` (time_utils.js
lines 23-40): on a truthy `value`, parse it with `dayjs.unix`, and if the
result is a valid instant render it in the ambient timezone with
`format || DEFAULT_FORMAT`; otherwise return the empty string.  `tz` is
the ambient timezone offset applied by `.local()` (0 = UTC). -/
def formatTimeStampValue (tz : Int) (value : JSValue)
    (format : Option String := none) : String :=
  if truthy value then
    let fmt := jsOrDefault format DEFAULT_FORMAT
    match dayjsUnix value with
    | some ms => dayjsFormat tz ms fmt
    | none => ""
  else ""

/-- A DOM element as `formatTimeStampElement` sees it: the two dataset
attributes it reads (`none` = attribute absent), the `innerText` it may
write, and `rest`, standing for every other field of the element. -/
structure Element (ρ : Type) where
  timestamp : Option String
  timeformat : Option String
  innerText : String
  rest : ρ
deriving DecidableEq, Repr

/-- `formatTimeStampElement(el)` (time_utils.js lines 8-21): if
`el.dataset.timestamp` is truthy, format it with
`el.dataset.timeformat || DEFAULT_FORMAT` and overwrite `el.innerText`
only when the formatted result is non-empty. -/
def formatTimeStampElement (tz : Int) {ρ : Type} (el : Element ρ) : Element ρ :=
  match el.timestamp with
  | some ts =>
    if ts ≠ "" then
      let fmt := jsOrDefault el.timeformat DEFAULT_FORMAT
      let formatted := formatTimeStampValue tz (.str ts) (some fmt)
      if formatted ≠ "" then { el with innerText := formatted } else el
    else el
  | none => el

/-- The structured alert payload `htmxAlert` reads: optional `message`
and `severity` fields (`none` = field absent on the JS object). -/
structure AlertPayload where
  message : Option String
  severity : Option String
deriving DecidableEq, Repr

/-- `htmxAlert(alert)` (main.js lines 5-12): the innerHTML written to the
alert container, with `alert.severity || 'danger'` and
`alert.message || "Oof. Unknown Error Occurred."` spliced in. -/
def htmxAlert (alert : AlertPayload) : String :=
  "\n    <div class=\"alert alert-dismissible alert-" ++
    jsOrDefault alert.severity "danger" ++ " alert-float\">\n" ++
  "        <button type=\"button\" class=\"btn-close\" data-bs-dismiss=\"alert\"></button>\n" ++
  "        " ++ jsOrDefault alert.message "Oof. Unknown Error Occurred." ++
  "\n    </div>"

/-- An `htmx:responseError` event, carrying an optional structured alert
payload in its detail. -/
structure HtmxEvent where
  payload : Option AlertPayload
deriving DecidableEq, Repr

/-- The `htmx.on("htmx:responseError", ...)` handler (main.js lines 46-48):
`function(evt) { htmxAlert({}) }` — the event is ignored and the alert is
rendered from the empty payload. -/
def onResponseError (_evt : HtmxEvent) : String :=
  htmxAlert { message := none, severity := none }

/-- `sub` occurs at the head of `hay`. -/
def leadsWith : List Char → List Char → Bool
  | _, [] => true
  | [], _ :: _ => false
  | a :: as, b :: bs => a == b && leadsWith as bs

/-- `sub` occurs somewhere in `hay`. -/
def occursInAux (sub : List Char) : List Char → Bool
  | [] => leadsWith [] sub
  | c :: cs => leadsWith (c :: cs) sub || occursInAux sub cs

/-- Substring test on strings (naive scan). -/
def occursIn (sub hay : String) : Bool :=
  occursInAux sub.data hay.data

/-- C1: `formatTimeStampValue` never throws, and any value that cannot be
parsed into a valid calendar timestamp (its `dayjs.unix` parse is invalid)
yields the empty string, for every ambient timezone and optional format. -/
theorem formatTimeStampValue_unparseable (tz : Int) (v : JSValue)
    (format : Option String) (h : dayjsUnix v = none) :
    formatTimeStampValue tz v format = "" := by
  unfold formatTimeStampValue
  split
  · simp only [h]
  · rfl

/-- Witness for C1 at the concrete unparseable input "not-a-number". -/
theorem formatTimeStampValue_unparseable_witness :
    dayjsUnix (JSValue.str "not-a-number") = none ∧
    formatTimeStampValue 0 (JSValue.str "not-a-number") none = "" :=
  ⟨by decide,
   formatTimeStampValue_unparseable 0 (JSValue.str "not-a-number") none (by decide)⟩

/-- C2: for every falsy value (empty string, null, undefined, the number
0), `formatTimeStampValue` returns the empty string immediately, for every
ambient timezone and optional format argument. -/
theorem formatTimeStampValue_falsy (tz : Int) (format : Option String)
    (v : JSValue) (h : truthy v = false) :
    formatTimeStampValue tz v format = "" := by
  unfold formatTimeStampValue
  simp [h]

/-- Witness for C2 at the four falsy values. -/
theorem formatTimeStampValue_falsy_witness :
    formatTimeStampValue 0 (JSValue.str "") none = "" ∧
    formatTimeStampValue 0 JSValue.nullV none = "" ∧
    formatTimeStampValue 0 JSValue.undef none = "" ∧
    formatTimeStampValue 0 (JSValue.num 0) none = "" :=
  ⟨formatTimeStampValue_falsy 0 none (JSValue.str "") (by decide),
   formatTimeStampValue_falsy 0 none JSValue.nullV (by decide),
   formatTimeStampValue_falsy 0 none JSValue.undef (by decide),
   formatTimeStampValue_falsy 0 none (JSValue.num 0) (by decide)⟩

/-- C3: with the ambient timezone fixed to UTC and no format supplied,
`formatTimeStampValue "1700000000"` renders the instant
2023-11-14T22:13:20 UTC with the default pattern `MM/DD/YY hh:mm:ss a` as
exactly "11/14/23 10:13:20 pm". -/
theorem formatTimeStampValue_default_render :
    formatTimeStampValue 0 (JSValue.str "1700000000") none
      = "11/14/23 10:13:20 pm" := by decide

/-- C8: with the ambient timezone fixed to UTC, supplying the custom
format "YYYY-MM-DD" renders "1700000000" as "2023-11-14" instead of the
default-pattern rendering. -/
theorem formatTimeStampValue_custom_format :
    formatTimeStampValue 0 (JSValue.str "1700000000") (some "YYYY-MM-DD")
      = "2023-11-14" ∧
    formatTimeStampValue 0 (JSValue.str "1700000000") (some "YYYY-MM-DD")
      ≠ formatTimeStampValue 0 (JSValue.str "1700000000") none := by decide

/-- C9: the string "0" is truthy, parses as epoch second 0, and is
rendered as the 1970-01-01 epoch instant (here under UTC with the default
pattern) rather than treated as an absent value. -/
theorem formatTimeStampValue_zero_string :
    truthy (JSValue.str "0") = true ∧
    dayjsUnix (JSValue.str "0") = some 0 ∧
    formatTimeStampValue 0 (JSValue.str "0") none = "01/01/70 12:00:00 am" ∧
    formatTimeStampValue 0 (JSValue.str "0") none ≠ "" := by decide

/-- C4: the element updater never blanks existing text: when the
timestamp attribute is absent or falsy the element is untouched; when the
formatted value is empty the text is unchanged; and whenever the text does
change, the new text is non-empty. -/
theorem formatTimeStampElement_preserves_text {ρ : Type} (tz : Int)
    (el : Element ρ) :
    (el.timestamp = none → formatTimeStampElement tz el = el) ∧
    (el.timestamp = some "" → formatTimeStampElement tz el = el) ∧
    (∀ ts, el.timestamp = some ts →
      formatTimeStampValue tz (JSValue.str ts)
        (some (jsOrDefault el.timeformat DEFAULT_FORMAT)) = "" →
      (formatTimeStampElement tz el).innerText = el.innerText) ∧
    ((formatTimeStampElement tz el).innerText ≠ el.innerText →
      (formatTimeStampElement tz el).innerText ≠ "") := by
  refine ⟨?_, ?_, ?_, ?_⟩
  · intro h
    simp [formatTimeStampElement, h]
  · intro h
    simp [formatTimeStampElement, h]
  · intro ts hts hval
    simp [formatTimeStampElement, hts, hval]
  · intro hchg
    cases hts : el.timestamp with
    | none => simp [formatTimeStampElement, hts] at hchg
    | some ts =>
      by_cases hne : ts = ""
      · simp [formatTimeStampElement, hts, hne] at hchg
      · by_cases hval : formatTimeStampValue tz (JSValue.str ts)
            (some (jsOrDefault el.timeformat DEFAULT_FORMAT)) = ""
        · simp [formatTimeStampElement, hts, hne, hval] at hchg
        · simp [formatTimeStampElement, hts, hne, hval]

/-- Witness for C4: an element whose timestamp attribute is unparseable
keeps its placeholder text. -/
theorem formatTimeStampElement_preserves_text_witness :
    (formatTimeStampElement 0
        ({ timestamp := some "not-a-number", timeformat := none,
           innerText := "placeholder", rest := () } : Element Unit)).innerText
      = "placeholder" :=
  (formatTimeStampElement_preserves_text 0
      { timestamp := some "not-a-number", timeformat := none,
        innerText := "placeholder", rest := () }).2.2.1
    "not-a-number" rfl (by decide)

/-- C7: on a truthy timestamp attribute the updater uses
`data-timeformat` as the pattern when it is present and truthy, and the
default pattern `MM/DD/YY hh:mm:ss a` otherwise; the text it writes is
`formatTimeStampValue` of the timestamp at that pattern. -/
theorem formatTimeStampElement_format_selection {ρ : Type} (tz : Int)
    (el : Element ρ) (ts : String) (hts : el.timestamp = some ts)
    (hne : ts ≠ "") :
    (∀ f, el.timeformat = some f → f ≠ "" →
      jsOrDefault el.timeformat DEFAULT_FORMAT = f) ∧
    (el.timeformat = none →
      jsOrDefault el.timeformat DEFAULT_FORMAT = DEFAULT_FORMAT) ∧
    (el.timeformat = some "" →
      jsOrDefault el.timeformat DEFAULT_FORMAT = DEFAULT_FORMAT) ∧
    (formatTimeStampValue tz (JSValue.str ts)
        (some (jsOrDefault el.timeformat DEFAULT_FORMAT)) ≠ "" →
      (formatTimeStampElement tz el).innerText =
        formatTimeStampValue tz (JSValue.str ts)
          (some (jsOrDefault el.timeformat DEFAULT_FORMAT))) := by
  refine ⟨?_, ?_, ?_, ?_⟩
  · intro f hf hfne
    simp [jsOrDefault, hf, hfne]
  · intro hf
    simp [jsOrDefault, hf]
  · intro hf
    simp [jsOrDefault, hf]
  · intro hval
    simp [formatTimeStampElement, hts, hne, hval]

/-- Witness for C7: a custom "YYYY-MM-DD" pattern attribute is the one
used to render the element text. -/
theorem formatTimeStampElement_format_selection_witness :
    (formatTimeStampElement 0
        ({ timestamp := some "1700000000", timeformat := some "YYYY-MM-DD",
           innerText := "old", rest := () } : Element Unit)).innerText
      = "2023-11-14" :=
  ((formatTimeStampElement_format_selection 0
      { timestamp := some "1700000000", timeformat := some "YYYY-MM-DD",
        innerText := "old", rest := () }
      "1700000000" rfl (by decide)).2.2.2 (by decide)).trans (by decide)

/-- C10: the element updater modifies at most `innerText`: the timestamp
and format data attributes and every other field of the element are left
unchanged. -/
theorem formatTimeStampElement_frame {ρ : Type} (tz : Int) (el : Element ρ) :
    (formatTimeStampElement tz el).timestamp = el.timestamp ∧
    (formatTimeStampElement tz el).timeformat = el.timeformat ∧
    (formatTimeStampElement tz el).rest = el.rest := by
  cases hts : el.timestamp with
  | none => simp [formatTimeStampElement, hts]
  | some ts =>
    by_cases hne : ts = ""
    · simp [formatTimeStampElement, hts, hne]
    · by_cases hval : formatTimeStampValue tz (JSValue.str ts)
          (some (jsOrDefault el.timeformat DEFAULT_FORMAT)) = ""
      · simp [formatTimeStampElement, hts, hne, hval]
      · simp [formatTimeStampElement, hts, hne, hval]

/-- C6: a failed response carrying no structured alert payload renders
exactly the default alert: a dismissible alert with severity danger and
the message "Oof. Unknown Error Occurred.". -/
theorem onResponseError_default_alert (evt : HtmxEvent)
    (h : evt.payload = none) :
    onResponseError evt = htmxAlert { message := none, severity := none } ∧
    occursIn "Oof. Unknown Error Occurred." (onResponseError evt) = true ∧
    occursIn "alert-danger" (onResponseError evt) = true ∧
    occursIn "alert-dismissible" (onResponseError evt) = true := by
  have hc : onResponseError evt
      = htmxAlert { message := none, severity := none } := rfl
  refine ⟨hc, ?_, ?_, ?_⟩ <;> rw [hc] <;> decide

/-- Witness for C6 at a concrete payload-free event. -/
theorem onResponseError_default_alert_witness :
    occursIn "Oof. Unknown Error Occurred." (onResponseError ⟨none⟩) = true :=
  (onResponseError_default_alert ⟨none⟩ rfl).2.1

/-- C5 counterexample: an event carrying the payload
(message "Server exploded", severity "warning") still renders neither that
message nor that severity — the response-error handler discards it. -/
theorem onResponseError_payload_cex :
    occursIn "Server exploded"
      (onResponseError ⟨some ⟨some "Server exploded", some "warning"⟩⟩)
      = false ∧
    occursIn "alert-warning"
      (onResponseError ⟨some ⟨some "Server exploded", some "warning"⟩⟩)
      = false ∧
    occursIn "Oof. Unknown Error Occurred."
      (onResponseError ⟨some ⟨some "Server exploded", some "warning"⟩⟩)
      = true := by decide

/-- C5 amended: for every failed response, even one whose event carries a
structured alert payload, the handler invokes the renderer with an empty
payload, so the rendered alert always shows the default message and the
default danger severity. -/
theorem onResponseError_always_default (evt : HtmxEvent) :
    onResponseError evt = htmxAlert { message := none, severity := none } ∧
    occursIn "Oof. Unknown Error Occurred." (onResponseError evt) = true ∧
    occursIn "alert-danger" (onResponseError evt) = true := by
  have hc : onResponseError evt
      = htmxAlert { message := none, severity := none } := rfl
  refine ⟨hc, ?_, ?_⟩ <;> rw [hc] <;> decide

end ZeusBuilder
